import Mathlib

/-!
Verification development for the discourse-bot repository.

The repository is a TypeScript support bot.  We shallowly embed the
conversation-engine core: the reply generator with citation post-processing
(`src/discord-bot.ts`), the intent classifier (both the `src/discord-bot.ts`
and `src/bot.ts` variants), the Discourse dispatcher with its feedback state
machine (`src/bot.ts`), the compiled dispatcher variant shipped under the
unknown-name sources (`src/unnamed/part_008`, a compiled `bot.js`), and the
resilient `apiRequest` wrapper of that compiled variant.

External effects (the OpenAI completion calls, the LanceDB similarity search,
the Discourse HTTP API) are modelled as oracles supplied through an
environment record: each call site consumes the oracle's answer for that call
and emits an observable event.  JavaScript strings are modelled as Lean
`String` (a structure over `List Char`), and the JavaScript string operations
used by the source (trim, toLowerCase, includes, startsWith, endsWith,
split, replace) are defined explicitly over the character list so that their
semantics is fully transparent.
-/

namespace JsStr

/-- JavaScript whitespace (`\s`), restricted to the ASCII part that the
source code processes; matches `Char.isWhitespace` on that range. -/
def isJsWS (c : Char) : Bool := c.isWhitespace

/-- Trim a character list on both ends, as JavaScript `String.prototype.trim`. -/
def trimList (l : List Char) : List Char :=
  ((l.dropWhile isJsWS).reverse.dropWhile isJsWS).reverse

/-- JavaScript `s.trim()`. -/
def jsTrim (s : String) : String := ⟨trimList s.data⟩

/-- JavaScript `s.toLowerCase()` (the sources only lower-case ASCII). -/
def jsToLower (s : String) : String := ⟨s.data.map Char.toLower⟩

/-- JavaScript `s.includes(sub)`: substring containment. -/
def jsIncludes (s sub : String) : Bool := decide (sub.data <:+: s.data)

/-- JavaScript `s.startsWith(pre)`. -/
def jsStartsWith (s pre : String) : Bool := pre.data.isPrefixOf s.data

/-- JavaScript `s.endsWith(suf)`. -/
def jsEndsWith (s suf : String) : Bool := suf.data.isSuffixOf s.data

/-- Head of JavaScript `s.split(/[\s:]+/)`: the (possibly empty) prefix of
`s` before the first whitespace or colon character.  Only element `[0]` of
the split is ever used by the source. -/
def jsSplitHeadWsColon (s : String) : String :=
  ⟨s.data.takeWhile (fun c => !(isJsWS c || c = ':'))⟩

/-- JavaScript `s.replace(/"/g, '')`: delete every double-quote character. -/
def jsStripQuotes (s : String) : String := ⟨s.data.filter (fun c => c ≠ '"')⟩

/-- JavaScript word character (`\w`): ASCII letter, digit or underscore. -/
def isJsWordChar (c : Char) : Bool := c.isAlpha || c.isDigit || c = '_'

/-- Test of the regular expression ``new RegExp(`^\\s*${kw}\\b`, 'i')`` on
`s`: optional leading whitespace, then `kw` case-insensitively, then a word
boundary.  Every keyword in the source ends in a word character, so the
boundary holds exactly when the next character is absent or not a word
character. -/
def kwAnchoredTest (kw s : String) : Bool :=
  let t := (s.data.dropWhile isJsWS).map Char.toLower
  kw.data.isPrefixOf t &&
    (match t.drop kw.data.length with
     | [] => true
     | c :: _ => !(isJsWordChar c))

/-- Strip the character list of HTML-ish tags, as the global replacement of
`/<[^>]*>?/g` by the empty string: each `<` removes everything up to and
including the next `>` (or to the end of the string when no `>` follows).
The boolean records whether the scanner is currently inside a tag. -/
def stripTagsGo : Bool → List Char → List Char
  | _, [] => []
  | false, c :: rest =>
    if c = '<' then stripTagsGo true rest else c :: stripTagsGo false rest
  | true, c :: rest =>
    if c = '>' then stripTagsGo false rest else stripTagsGo true rest

/-- JavaScript `s.replace(/<[^>]*>?/gm, '')` as used to flatten post HTML. -/
def stripHtml (s : String) : String := ⟨stripTagsGo false s.data⟩

end JsStr

namespace DiscordBot

open JsStr

/-!
Model of `generateAiReply` and `determineUserIntent` from `src/discord-bot.ts`.

A retrieved document is a JavaScript object whose fields may be absent
(`undefined`); absence is modelled by `Option`.  The retrieval gateway of
`src/lib/vector-store.ts` produces objects carrying only `pageContent`.
Reading an absent field inside a template literal produces the string
`"undefined"`; calling a method such as `.startsWith` on an absent field
throws a `TypeError`, modelled by `Except.error`.
-/

structure JsDoc where
  title : Option String
  url : Option String
  content : Option String
  pageContent : Option String
deriving DecidableEq

/-- Template-literal interpolation of a possibly-absent field. -/
def jsUndef (o : Option String) : String := o.getD "undefined"

/-- Shape of the objects returned by `vectorStore.similaritySearch` in
`src/lib/vector-store.ts`: only `pageContent` is present. -/
def gatewayDoc (pc : String) : JsDoc := ⟨none, none, none, some pc⟩

def DEFAULT_ERROR_MESSAGE : String :=
  "I'm sorry, I encountered a technical issue and couldn't process your request. A human agent has been notified."

def noKnowledgeReply : String :=
  "I'm sorry, I couldn't find any relevant information in my knowledge base to answer your question. If you'd like, I can escalate this to a human agent."

/-- The citation marker the source scans for: the literal text `[i]`. -/
def citeMarker (i : Nat) : String := "[" ++ toString i ++ "]"

/-- The blocks of `formattedContext`, one per document:
``[Source ${index + 1}: ${doc.title}]\n${doc.content}``.  The second
argument is the 0-based index of the first document of the list. -/
def contextBlocks : List JsDoc → Nat → List String
  | [], _ => []
  | d :: ds, i =>
    ("[Source " ++ toString (i + 1) ++ ": " ++ jsUndef d.title ++ "]\n" ++ jsUndef d.content)
      :: contextBlocks ds (i + 1)

/-- `formattedContext` of `generateAiReply`: the blocks joined by
`'\n\n---\n\n'`. -/
def formattedContext (docs : List JsDoc) : String :=
  String.intercalate "\n\n---\n\n" (contextBlocks docs 0)

/-- The markdown source line for document `d` at 0-based index `i`, assuming
its `url` field is present: ``${index + 1}. ${link}`` where `link` is a
markdown link when the url starts with `'http'` and the plain title
otherwise. -/
def renderSource (i : Nat) (d : JsDoc) : String :=
  let link :=
    if jsStartsWith (jsUndef d.url) "http" then
      "[" ++ jsUndef d.title ++ "](" ++ jsUndef d.url ++ ")"
    else jsUndef d.title
  toString (i + 1) ++ ". " ++ link

/-- The `sources` array computation of `generateAiReply`:
`similarDocs.map((doc, index) => ...).filter(Boolean)`.  For each document
whose marker `[index + 1]` occurs in the completion text the formatted line
is kept; other documents contribute nothing.  Accessing `doc.url` when the
field is absent throws a `TypeError`, aborting the whole computation. -/
def sourceLinesGo (aiResponse : String) : List JsDoc → Nat → Except Unit (List String)
  | [], _ => .ok []
  | d :: ds, i =>
    if jsIncludes aiResponse (citeMarker (i + 1)) then
      match d.url with
      | none => .error ()
      | some _ =>
        match sourceLinesGo aiResponse ds (i + 1) with
        | .error e => .error e
        | .ok rest => .ok (renderSource i d :: rest)
    else sourceLinesGo aiResponse ds (i + 1)

def sourceLines (docs : List JsDoc) (aiResponse : String) : Except Unit (List String) :=
  sourceLinesGo aiResponse docs 0

/-- `generateAiReply` of `src/discord-bot.ts`.  The completion call is an
oracle: `Except.error` is a thrown model/transport error, `Except.ok none`
a null completion.  The result carries the reply text and the number of
language-model completion calls issued. -/
def generateAiReply (docs : List JsDoc) (llm : Except Unit (Option String)) : String × Nat :=
  if docs.length = 0 then
    (noKnowledgeReply, 0)
  else
    match llm with
    | .error _ => (DEFAULT_ERROR_MESSAGE, 1)
    | .ok none => (DEFAULT_ERROR_MESSAGE, 1)
    | .ok (some aiResponse) =>
      if jsTrim aiResponse = "" then (DEFAULT_ERROR_MESSAGE, 1)
      else
        match sourceLines docs aiResponse with
        | .error _ => (DEFAULT_ERROR_MESSAGE, 1)
        | .ok sources =>
          let finalReply :=
            if sources.length > 0 then
              aiResponse ++ "\n\n**Sources:**\n" ++ String.intercalate "\n" sources
            else aiResponse
          (if jsTrim finalReply = "" then DEFAULT_ERROR_MESSAGE else finalReply, 1)

/-!
Intent classification.  Both `src/discord-bot.ts` and `src/bot.ts` normalize
the raw completion identically; only the enumerated set and the error
handling differ.  The completion outcome is again an oracle value.
-/

/-- Normalization of the raw completion:
`content?.trim().toLowerCase() || 'other'`, then first token of the split on
`/[\s:]+/`, then removal of double quotes.  A nullish content and an empty
trimmed string both fall back to `'other'` via JavaScript truthiness. -/
def cleanIntentOf (content : Option String) : String :=
  let rawIntent :=
    match content with
    | none => "other"
    | some c =>
      let t := jsToLower (jsTrim c)
      if t = "" then "other" else t
  jsStripQuotes (jsSplitHeadWsColon rawIntent)

/-- Validation against an enumerated set; values outside fall back to
`'other'`. -/
def classifyIntent (valid : List String) (content : Option String) : String :=
  let cleanIntent := cleanIntentOf content
  if cleanIntent ∈ valid then cleanIntent else "other"

def validIntentsDiscord : List String :=
  ["question", "escalation_request", "follow_up", "other"]

/-- `determineUserIntent` of `src/discord-bot.ts`: the completion call sits
inside `try { ... } catch { return 'other' }`. -/
def determineUserIntent (res : Except Unit (Option String)) : String :=
  match res with
  | .ok content => classifyIntent validIntentsDiscord content
  | .error _ => "other"

end DiscordBot

/-- An inbound feed post (`DiscoursePost` of `src/bot.ts`, together with the
`created_at` timestamp carried by the feed and read by the compiled
dispatcher variant; `src/bot.ts` ignores it).  `cooked`/`raw` are collapsed
to `raw`, the only text the modelled paths read. -/
structure Post where
  id : Nat
  topic_id : Nat
  username : String
  raw : String
  created_at : Nat
deriving DecidableEq

/-- Observable outbound effects of a dispatcher run. -/
inductive Event where
  | classify (postId : Nat)
  | fetchTopic (topicId : Nat)
  | search (query : String)
  | llm
  | reply (topicId : Nat) (raw : String) (newPostId : Nat)
  | edit (postId : Nat) (raw : String)
deriving DecidableEq

/-- An emitted event paired with the handled-id set at emission time. -/
abbrev Ev := Event × Finset Nat

namespace Bot

open JsStr

/-!
Model of the Discourse dispatcher of `src/bot.ts`.

The oracles: `intent` is the label `determineUserIntent` settles on for a
post (its totality is established separately against the classifier model),
`topic` the `fetchTopicHistory` response, `docs` the similarity-search
result (a list of `pageContent` strings), `gen` the generation completion
content (`none` models a null completion), `thinkMsg` the randomly chosen
thinking message.  Reply ids are allocated deterministically from a counter;
the JavaScript truthiness checks `if (replyId)` are modelled as `≠ 0`.
-/

structure Env where
  intent : Post → String
  topic : Nat → Option Unit
  docs : String → List String
  gen : Post → Option String
  thinkMsg : String
  apiUsername : String
  version : String

/-- Feedback-session states of `src/bot.ts`. -/
inductive FeedbackState where
  | awaiting_initial_feedback
  | awaiting_escalation_confirmation
deriving DecidableEq

/-- Engine state: the in-memory handled-id set (kept in lock-step with the
durable `replied_posts` table, whose `INSERT OR IGNORE` insert is the same
idempotent set insert), the `awaitingFeedback` map as an association list,
and the allocator for ids of posts the bot creates. -/
structure BotState where
  handled : Finset Nat
  feedback : List (Nat × FeedbackState)
  nextId : Nat
deriving DecidableEq

/-- `addRepliedId` of `src/lib/database.ts`: `INSERT OR IGNORE` of the post
id into the durable set. -/
def addRepliedId (stored : Finset Nat) (postId : Nat) : Finset Nat :=
  insert postId stored

/-- `markPostAsReplied` of `src/bot.ts`: insert into the in-memory set and
the durable store (both modelled by `handled`). -/
def markPostAsReplied (st : BotState) (postId : Nat) : BotState :=
  { st with handled := addRepliedId st.handled postId }

/-- `awaitingFeedback.get`. -/
def lookupFB : List (Nat × FeedbackState) → Nat → Option FeedbackState
  | [], _ => none
  | (t, s) :: rest, tid => if t = tid then some s else lookupFB rest tid

/-- `awaitingFeedback.set`: overwrite the entry for the key, or append. -/
def setFB : List (Nat × FeedbackState) → Nat → FeedbackState → List (Nat × FeedbackState)
  | [], tid, s => [(tid, s)]
  | (t, s') :: rest, tid, s =>
    if t = tid then (tid, s) :: rest else (t, s') :: setFB rest tid s

/-- `awaitingFeedback.delete`. -/
def delFB : List (Nat × FeedbackState) → Nat → List (Nat × FeedbackState)
  | [], _ => []
  | (t, s) :: rest, tid =>
    if t = tid then delFB rest tid else (t, s) :: delFB rest tid

def setFeedback (st : BotState) (topicId : Nat) (s : FeedbackState) : BotState :=
  { st with feedback := setFB st.feedback topicId s }

def deleteFeedback (st : BotState) (topicId : Nat) : BotState :=
  { st with feedback := delFB st.feedback topicId }

def emit (st : BotState) (e : Event) : Ev := (e, st.handled)

/-- `botFooter`: appended by `postReply` (unless suppressed) and `editPost`. -/
def botFooter (env : Env) : String := "\n\n---\n> Bot v" ++ env.version

/-- `postReply`: create a post in the topic, returning its id.  The raw text
gets the footer unless `includeFooter` is `false`. -/
def postReplyM (env : Env) (st : BotState) (topicId : Nat) (raw : String)
    (includeFooter : Bool) : Nat × Ev × BotState :=
  (st.nextId,
   emit st (.reply topicId (raw ++ (if includeFooter then botFooter env else "")) st.nextId),
   { st with nextId := st.nextId + 1 })

def positiveKeywords : List String :=
  ["yes", "yep", "thanks", "thank you", "helpful", "perfect", "super helpful",
   "sure was", "that worked"]

def negativeKeywords : List String :=
  ["no", "nope", "nah", "not really", "not helpful", "didn't work", "not at all"]

/-- `isPositive` of `handleFeedbackReply`: some positive keyword matches
`^\s*kw\b` case-insensitively and the reply is shorter than 30 characters. -/
def isPositiveFeedback (userReply : String) : Bool :=
  positiveKeywords.any (fun kw => kwAnchoredTest kw userReply && decide (userReply.length < 30))

/-- `isNegative` of `handleFeedbackReply`. -/
def isNegativeFeedback (userReply : String) : Bool :=
  negativeKeywords.any (fun kw => kwAnchoredTest kw userReply && decide (userReply.length < 30))

def feedbackInvite : String :=
  "\n\n*Was this helpful? You can reply with 'Yes' or 'No' to let me know.*"

/-- `handleQuestion` of `src/bot.ts`: mark the triggering post handled,
post the thinking message (no footer), mark its id, run retrieval, issue
the completion call, and on a truthy non-empty completion edit the thinking
post into the final answer (footer appended by `editPost`) and open a
feedback session. -/
def handleQuestion (env : Env) (post : Post) (st : BotState) : List Ev × BotState :=
  let st0 := markPostAsReplied st post.id
  let pr := postReplyM env st0 post.topic_id env.thinkMsg false
  let thinkingPostId := pr.1
  let ev1 := pr.2.1
  let st1 := pr.2.2
  let st2 := if thinkingPostId ≠ 0 then markPostAsReplied st1 thinkingPostId else st1
  let q := jsTrim (stripHtml post.raw)
  let ev2 := emit st2 (.search q)
  let _context := String.intercalate "\n---\n" (env.docs q)
  let ev3 := emit st2 .llm
  match env.gen post with
  | some aiReply =>
    if aiReply ≠ "" ∧ thinkingPostId ≠ 0 then
      let ev4 := emit st2 (.edit thinkingPostId (aiReply ++ feedbackInvite ++ botFooter env))
      ([ev1, ev2, ev3, ev4],
       setFeedback st2 post.topic_id .awaiting_initial_feedback)
    else ([ev1, ev2, ev3], st2)
  | none => ([ev1, ev2, ev3], st2)

/-- `processPost` of `src/bot.ts`: classify, fetch the topic, and route:
questions go to `handleQuestion`, everything else is only marked handled
(as is a post whose topic fetch yields nothing). -/
def processPost (env : Env) (post : Post) (st : BotState) : List Ev × BotState :=
  let ev0 := emit st (.classify post.id)
  let intent := env.intent post
  let ev1 := emit st (.fetchTopic post.topic_id)
  match env.topic post.topic_id with
  | none => ([ev0, ev1], markPostAsReplied st post.id)
  | some _ =>
    if intent = "question" then
      let r := handleQuestion env post st
      (ev0 :: ev1 :: r.1, r.2)
    else ([ev0, ev1], markPostAsReplied st post.id)

/-- `handleFeedbackReply` of `src/bot.ts`. -/
def handleFeedbackReply (env : Env) (post : Post) (st : BotState) : List Ev × BotState :=
  let st0 := markPostAsReplied st post.id
  match lookupFB st0.feedback post.topic_id with
  | none => ([], st0)
  | some fs =>
    let userReply := jsTrim post.raw
    let isPositive := isPositiveFeedback userReply
    let isNegative := isNegativeFeedback userReply
    match fs with
    | .awaiting_initial_feedback =>
      if isPositive then
        let pr := postReplyM env st0 post.topic_id "Thanks, I'm glad I could help!" true
        let st1 := if pr.1 ≠ 0 then markPostAsReplied pr.2.2 pr.1 else pr.2.2
        ([pr.2.1], deleteFeedback st1 post.topic_id)
      else if isNegative then
        let pr := postReplyM env st0 post.topic_id
          "I'm sorry to hear that. Do you want me to raise a ticket for the support team?" true
        let st1 := if pr.1 ≠ 0 then markPostAsReplied pr.2.2 pr.1 else pr.2.2
        ([pr.2.1], setFeedback st1 post.topic_id .awaiting_escalation_confirmation)
      else
        processPost env post (deleteFeedback st0 post.topic_id)
    | .awaiting_escalation_confirmation =>
      let st1 := deleteFeedback st0 post.topic_id
      if isPositive then
        let pr := postReplyM env st1 post.topic_id
          "Okay, I have created a ticket for the support team. They will review this conversation and get back to you here shortly." true
        let st2 := if pr.1 ≠ 0 then markPostAsReplied pr.2.2 pr.1 else pr.2.2
        ([pr.2.1], st2)
      else if isNegative then
        let pr := postReplyM env st1 post.topic_id
          "Okay, I will not escalate the situation. If you have another question, feel free to ask." true
        let st2 := if pr.1 ≠ 0 then markPostAsReplied pr.2.2 pr.1 else pr.2.2
        ([pr.2.1], st2)
      else ([], st1)

/-- One `runBot` cycle of `src/bot.ts`: walk the fetched snapshot in feed
order, skipping posts already handled, posts by the bot's own identity, and
posts whose author name ends in `bot` (case-insensitively); remaining posts
are routed to the feedback handler when their topic has an open session and
to `processPost` otherwise. -/
def runBot (env : Env) : List Post → BotState → List Ev × BotState
  | [], st => ([], st)
  | post :: rest, st =>
    if post.id ∈ st.handled
        ∨ jsToLower post.username = jsToLower env.apiUsername
        ∨ jsEndsWith (jsToLower post.username) "bot" = true then
      runBot env rest st
    else
      let r :=
        if (lookupFB st.feedback post.topic_id).isSome then
          handleFeedbackReply env post st
        else processPost env post st
      let rec' := runBot env rest r.2
      (r.1 ++ rec'.1, rec'.2)

/-- `determineUserIntent` of `src/bot.ts`: identical normalization, its own
enumerated set, and no `try`/`catch` — a thrown completion error leaves the
function to the caller. -/
def validIntents : List String :=
  ["question", "bug_report", "escalation_request", "positive_feedback", "other"]

def determineUserIntent (res : Except Unit (Option String)) : Except Unit String :=
  match res with
  | .ok content => .ok (DiscordBot.classifyIntent validIntents content)
  | .error e => .error e

end Bot


namespace DistBot

open JsStr

/-!
Model of the compiled dispatcher variant (`src/unnamed/part_008`, first
file: a compiled `bot.js`): its `apiRequest` retry wrapper, its
`generateAiReply`, its `processPost` and its `runBot` with the
process-start restart guard.
-/

/-- Outcome of one `fetch` attempt inside `apiRequest`. -/
inductive FetchResp where
  | rateLimited (waitSeconds : Option Nat)
  | ok (body : String)
  | badStatus
  | netError
deriving DecidableEq

/-- How an `apiRequest` call resolves: a parsed body, a thrown error, or
`undefined` (falling off the end of the `for` loop). -/
inductive ApiResult where
  | success (body : String)
  | thrown
  | undef
deriving DecidableEq

/-- Trace of one `apiRequest` call: its result, the durations (ms) slept
between attempts, and the number of `fetch` attempts issued. -/
structure ApiOutcome where
  result : ApiResult
  sleeps : List Nat
  fetches : Nat
deriving DecidableEq

/-- The `for (let i = 0; i < retries; i++)` loop of `apiRequest`, from
attempt `i` on, with `fuel` the number of loop iterations left
(`retries - i`, so the loop guard `i < retries` is `fuel > 0`).  A 429
response sleeps `waitSeconds * 1000 + 500` ms (the server hint, or
`delay / 1000` seconds when absent) and `continue`s — which advances `i`,
consuming fuel.  Any other failure is caught: on the last attempt
(`i = retries - 1`) it is rethrown, otherwise the loop sleeps
`delay * (i + 1)` ms and retries.  Exhausting the loop resolves with
`undefined`. -/
def apiRequestLoop (env : Nat → FetchResp) (retries delay : Nat) : Nat → Nat → ApiOutcome
  | _, 0 => ⟨.undef, [], 0⟩
  | i, fuel + 1 =>
    match env i with
    | .rateLimited w =>
      let waitSeconds := w.getD (delay / 1000)
      let o := apiRequestLoop env retries delay (i + 1) fuel
      ⟨o.result, (waitSeconds * 1000 + 500) :: o.sleeps, o.fetches + 1⟩
    | .ok body => ⟨.success body, [], 1⟩
    | .badStatus =>
      if i = retries - 1 then ⟨.thrown, [], 1⟩
      else
        let o := apiRequestLoop env retries delay (i + 1) fuel
        ⟨o.result, delay * (i + 1) :: o.sleeps, o.fetches + 1⟩
    | .netError =>
      if i = retries - 1 then ⟨.thrown, [], 1⟩
      else
        let o := apiRequestLoop env retries delay (i + 1) fuel
        ⟨o.result, delay * (i + 1) :: o.sleeps, o.fetches + 1⟩

/-- `apiRequest` with its scripted fetch responses (defaults in the source:
`retries = 3`, `delay = 1000`). -/
def apiRequest (env : Nat → FetchResp) (retries delay : Nat) : ApiOutcome :=
  apiRequestLoop env retries delay 0 retries

/-- `generateAiReply` of the compiled variant: the retrieved documents only
feed the prompt; the returned text is `content?.trim()` with a nullish
fallback, and a thrown completion error is caught with a different fixed
message.  A whitespace-only completion is not nullish, so it is returned
trimmed — as the empty string. -/
def generateAiReply (docs : List String) (llm : Except Unit (Option String)) : String :=
  let _context := String.intercalate "\n---\n" docs
  match llm with
  | .error _ => "I'm sorry, I encountered an error. A human agent will get back to you shortly."
  | .ok none => "I'm sorry, I encountered an error."
  | .ok (some content) => jsTrim content

structure Env where
  intent : Post → String
  topic : Nat → Option Unit
  query : Post → String
  docs : String → List String
  gen : Post → Except Unit (Option String)
  apiUsername : String
  version : String

structure St where
  handled : Finset Nat
  nextId : Nat
deriving DecidableEq

def mark (st : St) (postId : Nat) : St :=
  { st with handled := insert postId st.handled }

def emitD (st : St) (e : Event) : Ev := (e, st.handled)

def botFooter (env : Env) : String := "\n\n---\n> Bot v" ++ env.version

def escalationText : String :=
  "Your request has been escalated to our human support team."

/-- `processPost` of the compiled variant.  The `switch` has no `default`,
so an intent outside the enumerated four performs no action at all. -/
def processPost (env : Env) (post : Post) (st : St) : List Ev × St :=
  let ev0 := emitD st (.classify post.id)
  let intent := env.intent post
  let ev1 := emitD st (.fetchTopic post.topic_id)
  match env.topic post.topic_id with
  | none => ([ev0, ev1], mark st post.id)
  | some _ =>
    if intent = "question" then
      let q := env.query post
      let ev2 := emitD st (.search q)
      let ev3 := emitD st .llm
      let reply_text := generateAiReply (env.docs q) (env.gen post)
      let replyId := st.nextId
      let ev4 := emitD st (.reply post.topic_id (reply_text ++ botFooter env) replyId)
      let st1 := { st with nextId := st.nextId + 1 }
      let st2 := if replyId ≠ 0 then mark st1 replyId else st1
      ([ev0, ev1, ev2, ev3, ev4], mark st2 post.id)
    else if intent = "escalation_request" then
      let replyId := st.nextId
      let ev2 := emitD st (.reply post.topic_id (escalationText ++ botFooter env) replyId)
      let st1 := { st with nextId := st.nextId + 1 }
      let st2 := if replyId ≠ 0 then mark st1 replyId else st1
      ([ev0, ev1, ev2], mark st2 post.id)
    else if intent = "follow_up" ∨ intent = "other" then
      ([ev0, ev1], mark st post.id)
    else ([ev0, ev1], st)

/-- `runBot` of the compiled variant: additionally to the three filters of
`src/bot.ts`, a post whose creation time predates `botStartTime` is
discarded. -/
def runBot (env : Env) (botStartTime : Nat) : List Post → St → List Ev × St
  | [], st => ([], st)
  | post :: rest, st =>
    if post.created_at < botStartTime
        ∨ post.id ∈ st.handled
        ∨ jsToLower post.username = jsToLower env.apiUsername
        ∨ jsEndsWith (jsToLower post.username) "bot" = true then
      runBot env botStartTime rest st
    else
      let r := processPost env post st
      let rec' := runBot env botStartTime rest r.2
      (r.1 ++ rec'.1, rec'.2)

end DistBot

/-!
Concrete fixtures used by witness and counterexample theorems.
-/

/-- A benign oracle: every post classifies as `other`, topics resolve,
retrieval finds nothing, generation answers. -/
def envA : Bot.Env :=
  { intent := fun _ => "other"
    topic := fun _ => some ()
    docs := fun _ => []
    gen := fun _ => some "The answer."
    thinkMsg := "_Thinking..._"
    apiUsername := "system"
    version := "4.O hybrid powered by AgentBrain" }

/-- Like `envA` but every post classifies as `question`. -/
def envQ : Bot.Env :=
  { envA with intent := fun _ => "question" }

def pFeedback : Post := ⟨21, 5, "alice", "Yes, thank you!", 1700⟩

def pAmbiguous : Post := ⟨22, 5, "alice", "Actually I have another question about billing", 1700⟩

def pOld : Post := ⟨3, 9, "carol", "hello there", 0⟩

def pQ : Post := ⟨7, 4, "bob", "How do I reset my password?", 1700⟩

def stEmpty : Bot.BotState := ⟨∅, [], 10⟩

def stFB : Bot.BotState := ⟨∅, [(5, .awaiting_initial_feedback)], 10⟩

def stHandled : Bot.BotState := ⟨{21}, [], 10⟩

/-- A fetch oracle that rate-limits every attempt with a 5-second hint. -/
def rlEnv : Nat → DistBot.FetchResp := fun _ => .rateLimited (some 5)

def envD : DistBot.Env :=
  { intent := fun _ => "other"
    topic := fun _ => some ()
    query := fun _ => "q"
    docs := fun _ => []
    gen := fun _ => .ok (some "x")
    apiUsername := "system"
    version := "4.O hybrid powered by AgentBrain" }

def stD : DistBot.St := ⟨∅, 10⟩

/-- Two fully-populated documents, as the citation examples use. -/
def docsC1 : List DiscordBot.JsDoc :=
  [⟨some "Doc A", some "http://a", some "ca", none⟩,
   ⟨some "Doc B", some "ftp://b", some "cb", none⟩]

/-!
Lemmas.
-/

namespace JsStr

theorem trimList_eq_nil_iff (l : List Char) :
    trimList l = [] ↔ ∀ c ∈ l, isJsWS c := by
  simp only [trimList, List.reverse_eq_nil_iff, List.dropWhile_eq_nil_iff, List.mem_reverse]
  constructor
  · intro h c hc
    have hsplit := List.takeWhile_append_dropWhile (p := isJsWS) (l := l)
    have hc' : c ∈ l.takeWhile isJsWS ++ l.dropWhile isJsWS := by rw [hsplit]; exact hc
    rcases List.mem_append.mp hc' with h1 | h2
    · exact List.mem_takeWhile_imp h1
    · exact h c h2
  · intro h c hc
    exact h c ((List.dropWhile_sublist _).subset hc)

theorem jsTrim_eq_empty_iff (s : String) :
    jsTrim s = "" ↔ ∀ c ∈ s.data, isJsWS c := by
  constructor
  · intro h
    have : trimList s.data = [] := congrArg String.data h
    exact (trimList_eq_nil_iff s.data).mp this
  · intro h
    exact String.ext ((trimList_eq_nil_iff s.data).mpr h)

theorem jsTrim_append_ne_empty (a b : String) (h : jsTrim a ≠ "") :
    jsTrim (a ++ b) ≠ "" := by
  intro hcontra
  apply h
  rw [jsTrim_eq_empty_iff] at hcontra ⊢
  intro c hc
  exact hcontra c (by rw [String.data_append]; exact List.mem_append.mpr (Or.inl hc))

end JsStr

namespace DiscordBot

open JsStr

theorem sourceLinesGo_ok (resp : String) : ∀ (ds : List JsDoc) (i : Nat),
    (∀ d ∈ ds, d.url.isSome) →
    sourceLinesGo resp ds i =
      .ok (((List.range' i ds.length).zip ds).filterMap
        (fun p =>
          if jsIncludes resp (citeMarker (p.1 + 1)) then some (renderSource p.1 p.2)
          else none))
  | [], i, _ => by simp [sourceLinesGo, List.range']
  | d :: ds, i, h => by
    obtain ⟨u, hu⟩ := Option.isSome_iff_exists.mp (h d (by simp))
    have ih := sourceLinesGo_ok resp ds (i + 1) (fun x hx => h x (by simp [hx]))
    by_cases hc : jsIncludes resp (citeMarker (i + 1)) = true
    · simp [sourceLinesGo, hu, hc, ih, List.range', List.filterMap_cons]
    · simp [sourceLinesGo, hu, hc, ih, List.range', List.filterMap_cons]

theorem sourceLinesGo_error (resp : String) : ∀ (ds : List JsDoc) (i : Nat),
    (∀ d ∈ ds, d.url = none) →
    (∃ j, j < ds.length ∧ jsIncludes resp (citeMarker (i + j + 1)) = true) →
    sourceLinesGo resp ds i = .error ()
  | [], _, _, hex => by
    obtain ⟨j, hj, _⟩ := hex
    simp at hj
  | d :: ds, i, h, hex => by
    have hd : d.url = none := h d (by simp)
    by_cases hc : jsIncludes resp (citeMarker (i + 1)) = true
    · simp [sourceLinesGo, hc, hd]
    · obtain ⟨j, hj, hm⟩ := hex
      cases j with
      | zero => exact absurd hm hc
      | succ j' =>
        have hm' : jsIncludes resp (citeMarker ((i + 1) + j' + 1)) = true := by
          rw [show (i + 1) + j' + 1 = i + (j' + 1) + 1 by omega]
          exact hm
        have ih := sourceLinesGo_error resp ds (i + 1)
          (fun x hx => h x (by simp [hx]))
          ⟨j', by simp at hj; omega, hm'⟩
        simp [sourceLinesGo, hc, ih]

theorem contextBlocks_gateway : ∀ (pcs : List String) (i : Nat),
    contextBlocks (pcs.map gatewayDoc) i =
      (List.range' i pcs.length).map
        (fun k => "[Source " ++ toString (k + 1) ++ ": " ++ "undefined" ++ "]\n" ++ "undefined")
  | [], i => by simp [contextBlocks, List.range']
  | pc :: pcs, i => by
    simp [contextBlocks, gatewayDoc, jsUndef, List.range', contextBlocks_gateway pcs (i + 1)]

end DiscordBot

namespace Bot

@[simp] theorem handled_mark (st : BotState) (p : Nat) :
    (markPostAsReplied st p).handled = insert p st.handled := rfl

@[simp] theorem feedback_mark (st : BotState) (p : Nat) :
    (markPostAsReplied st p).feedback = st.feedback := rfl

@[simp] theorem nextId_mark (st : BotState) (p : Nat) :
    (markPostAsReplied st p).nextId = st.nextId := rfl

@[simp] theorem handled_deleteFeedback (st : BotState) (t : Nat) :
    (deleteFeedback st t).handled = st.handled := rfl

@[simp] theorem handled_setFeedback (st : BotState) (t : Nat) (fs : FeedbackState) :
    (setFeedback st t fs).handled = st.handled := rfl

@[simp] theorem postReplyM_fst (env : Env) (st : BotState) (t : Nat) (r : String) (b : Bool) :
    (postReplyM env st t r b).1 = st.nextId := rfl

@[simp] theorem postReplyM_state_handled (env : Env) (st : BotState) (t : Nat) (r : String) (b : Bool) :
    ((postReplyM env st t r b).2.2).handled = st.handled := rfl

@[simp] theorem postReplyM_state_feedback (env : Env) (st : BotState) (t : Nat) (r : String) (b : Bool) :
    ((postReplyM env st t r b).2.2).feedback = st.feedback := rfl

theorem handled_mono_mark (st : BotState) (p : Nat) :
    st.handled ⊆ (markPostAsReplied st p).handled :=
  Finset.subset_insert _ _

theorem handled_mono_handleQuestion (env : Env) (post : Post) (st : BotState) :
    st.handled ⊆ (handleQuestion env post st).2.handled := by
  intro x hx
  simp only [handleQuestion, postReplyM, markPostAsReplied, addRepliedId, setFeedback, emit]
  repeat' split
  all_goals simp_all [Finset.mem_insert]

theorem handled_mono_processPost (env : Env) (post : Post) (st : BotState) :
    st.handled ⊆ (processPost env post st).2.handled := by
  cases h : env.topic post.topic_id with
  | none => simp only [processPost, h]; exact handled_mono_mark st post.id
  | some _ =>
    simp only [processPost, h]
    split
    · exact handled_mono_handleQuestion env post st
    · exact handled_mono_mark st post.id

theorem handled_mono_handleFeedbackReply (env : Env) (post : Post) (st : BotState) :
    st.handled ⊆ (handleFeedbackReply env post st).2.handled := by
  simp only [handleFeedbackReply]
  cases hlk : lookupFB (markPostAsReplied st post.id).feedback post.topic_id with
  | none => exact handled_mono_mark st post.id
  | some fs =>
    cases fs with
    | awaiting_initial_feedback =>
      by_cases hp : isPositiveFeedback (JsStr.jsTrim post.raw) = true
      · simp only [hp, if_true]
        intro x hx
        simp only [postReplyM, markPostAsReplied, addRepliedId, deleteFeedback, emit]
        repeat' split
        all_goals simp_all [Finset.mem_insert]
      · by_cases hn : isNegativeFeedback (JsStr.jsTrim post.raw) = true
        · simp only [hp, hn, if_false, if_true]
          intro x hx
          simp only [postReplyM, markPostAsReplied, addRepliedId, setFeedback, emit]
          repeat' split
          all_goals simp_all [Finset.mem_insert]
        · simp only [hp, hn, if_false]
          have h1 : st.handled ⊆ (deleteFeedback (markPostAsReplied st post.id) post.topic_id).handled := by
            simp only [handled_deleteFeedback, handled_mark]
            exact Finset.subset_insert _ _
          exact h1.trans (handled_mono_processPost env post _)
    | awaiting_escalation_confirmation =>
      by_cases hp : isPositiveFeedback (JsStr.jsTrim post.raw) = true
      · simp only [hp, if_true]
        intro x hx
        simp only [postReplyM, markPostAsReplied, addRepliedId, deleteFeedback, emit]
        repeat' split
        all_goals simp_all [Finset.mem_insert]
      · by_cases hn : isNegativeFeedback (JsStr.jsTrim post.raw) = true
        · simp only [hp, hn, if_false, if_true]
          intro x hx
          simp only [postReplyM, markPostAsReplied, addRepliedId, deleteFeedback, emit]
          repeat' split
          all_goals simp_all [Finset.mem_insert]
        · simp only [hp, hn, if_false]
          exact handled_mono_mark st post.id

end Bot

namespace Bot

/-- A post id already in the handled set stays handled: filtering all posts
with that id out of the batch changes nothing about a cycle. -/
theorem runBot_skip_handled (env : Env) : ∀ (posts : List Post) (st : BotState) (pid : Nat),
    pid ∈ st.handled →
    runBot env posts st = runBot env (posts.filter (fun p => p.id ≠ pid)) st
  | [], _, _, _ => rfl
  | p :: rest, st, pid, h => by
    by_cases hid : p.id = pid
    · rw [List.filter_cons_of_neg (by simp [hid])]
      have hskip : p.id ∈ st.handled
          ∨ JsStr.jsToLower p.username = JsStr.jsToLower env.apiUsername
          ∨ JsStr.jsEndsWith (JsStr.jsToLower p.username) "bot" = true := Or.inl (hid ▸ h)
      simp only [runBot, if_pos hskip]
      exact runBot_skip_handled env rest st pid h
    · rw [List.filter_cons_of_pos (by simp [hid])]
      simp only [runBot]
      by_cases hskip : p.id ∈ st.handled
          ∨ JsStr.jsToLower p.username = JsStr.jsToLower env.apiUsername
          ∨ JsStr.jsEndsWith (JsStr.jsToLower p.username) "bot" = true
      · rw [if_pos hskip, if_pos hskip]
        exact runBot_skip_handled env rest st pid h
      · rw [if_neg hskip, if_neg hskip]
        have hmono : st.handled ⊆
            (if (lookupFB st.feedback p.topic_id).isSome then handleFeedbackReply env p st
             else processPost env p st).2.handled := by
          split
          · exact handled_mono_handleFeedbackReply env p st
          · exact handled_mono_processPost env p st
        rw [runBot_skip_handled env rest _ pid (hmono h)]

/-- Dropping a post that fails one of the dispatcher's filters (already
handled, own identity, author name ending in `bot`) from anywhere in the
batch changes nothing about a cycle of the `src/bot.ts` dispatcher. -/
theorem runBot_drop_filtered (env : Env) : ∀ (posts₁ : List Post) (p : Post) (posts₂ : List Post) (st : BotState),
    (p.id ∈ st.handled
      ∨ JsStr.jsToLower p.username = JsStr.jsToLower env.apiUsername
      ∨ JsStr.jsEndsWith (JsStr.jsToLower p.username) "bot" = true) →
    runBot env (posts₁ ++ p :: posts₂) st = runBot env (posts₁ ++ posts₂) st
  | [], p, posts₂, st, h => by
    simp only [List.nil_append]
    conv_lhs => rw [runBot]
    rw [if_pos h]
  | q :: rest, p, posts₂, st, h => by
    simp only [List.cons_append, runBot]
    by_cases hskip : q.id ∈ st.handled
        ∨ JsStr.jsToLower q.username = JsStr.jsToLower env.apiUsername
        ∨ JsStr.jsEndsWith (JsStr.jsToLower q.username) "bot" = true
    · rw [if_pos hskip, if_pos hskip]
      exact runBot_drop_filtered env rest p posts₂ st h
    · rw [if_neg hskip, if_neg hskip]
      have hmono : st.handled ⊆
          (if (lookupFB st.feedback q.topic_id).isSome then handleFeedbackReply env q st
           else processPost env q st).2.handled := by
        split
        · exact handled_mono_handleFeedbackReply env q st
        · exact handled_mono_processPost env q st
      have h' : p.id ∈ (if (lookupFB st.feedback q.topic_id).isSome then handleFeedbackReply env q st
            else processPost env q st).2.handled
          ∨ JsStr.jsToLower p.username = JsStr.jsToLower env.apiUsername
          ∨ JsStr.jsEndsWith (JsStr.jsToLower p.username) "bot" = true := by
        rcases h with h | h | h
        · exact Or.inl (hmono h)
        · exact Or.inr (Or.inl h)
        · exact Or.inr (Or.inr h)
      simp only [List.append_eq]
      rw [runBot_drop_filtered env rest p posts₂ _ h']

end Bot

namespace DistBot

theorem handled_mono_processPostJs (env : Env) (post : Post) (st : St) :
    st.handled ⊆ (processPost env post st).2.handled := by
  intro x hx
  simp only [processPost, mark, emitD]
  repeat' split
  all_goals simp_all [Finset.mem_insert]

/-- Dropping a post that fails one of the compiled dispatcher's four filters
(stale creation time, already handled, own identity, author name ending in
`bot`) from anywhere in the batch changes nothing about a cycle. -/
theorem runBot_drop_filteredJs (env : Env) (s : Nat) : ∀ (posts₁ : List Post) (p : Post) (posts₂ : List Post) (st : St),
    (p.created_at < s
      ∨ p.id ∈ st.handled
      ∨ JsStr.jsToLower p.username = JsStr.jsToLower env.apiUsername
      ∨ JsStr.jsEndsWith (JsStr.jsToLower p.username) "bot" = true) →
    runBot env s (posts₁ ++ p :: posts₂) st = runBot env s (posts₁ ++ posts₂) st
  | [], p, posts₂, st, h => by
    simp only [List.nil_append]
    conv_lhs => rw [runBot]
    rw [if_pos h]
  | q :: rest, p, posts₂, st, h => by
    simp only [List.cons_append, runBot]
    by_cases hskip : q.created_at < s
        ∨ q.id ∈ st.handled
        ∨ JsStr.jsToLower q.username = JsStr.jsToLower env.apiUsername
        ∨ JsStr.jsEndsWith (JsStr.jsToLower q.username) "bot" = true
    · rw [if_pos hskip, if_pos hskip]
      exact runBot_drop_filteredJs env s rest p posts₂ st h
    · rw [if_neg hskip, if_neg hskip]
      have hmono : st.handled ⊆ (processPost env q st).2.handled :=
        handled_mono_processPostJs env q st
      have h' : p.created_at < s
          ∨ p.id ∈ (processPost env q st).2.handled
          ∨ JsStr.jsToLower p.username = JsStr.jsToLower env.apiUsername
          ∨ JsStr.jsEndsWith (JsStr.jsToLower p.username) "bot" = true := by
        rcases h with h | h | h | h
        · exact Or.inl h
        · exact Or.inr (Or.inl (hmono h))
        · exact Or.inr (Or.inr (Or.inl h))
        · exact Or.inr (Or.inr (Or.inr h))
      simp only [List.append_eq]
      rw [runBot_drop_filteredJs env s rest p posts₂ _ h']

end DistBot

namespace Bot

theorem lookupFB_delFB : ∀ (l : List (Nat × FeedbackState)) (t : Nat),
    lookupFB (delFB l t) t = none
  | [], _ => rfl
  | (t', s) :: rest, t => by
    by_cases h : t' = t
    · simp [delFB, h, lookupFB_delFB rest t]
    · simp [delFB, h, lookupFB, lookupFB_delFB rest t]

theorem lookupFB_setFB : ∀ (l : List (Nat × FeedbackState)) (t : Nat) (s : FeedbackState),
    lookupFB (setFB l t s) t = some s
  | [], _, _ => by simp [setFB, lookupFB]
  | (t', s') :: rest, t, s => by
    by_cases h : t' = t
    · simp [setFB, h, lookupFB]
    · simp [setFB, h, lookupFB, lookupFB_setFB rest t s]

end Bot

theorem filterMap_ite_eq_map_filter {α β : Type} (p : α → Bool) (f : α → β) :
    ∀ l : List α,
      l.filterMap (fun a => if p a then some (f a) else none) = (l.filter p).map f
  | [] => rfl
  | a :: l => by
    by_cases h : p a <;>
      simp [List.filterMap_cons, List.filter_cons, h, filterMap_ite_eq_map_filter p f l]

namespace DistBot

theorem apiRequestLoop_all_rateLimited (env : Nat → FetchResp) (retries delay : Nat) :
    ∀ (fuel i : Nat), (∀ j, i ≤ j → j < i + fuel → ∃ w, env j = .rateLimited w) →
      (apiRequestLoop env retries delay i fuel).result = .undef
      ∧ (apiRequestLoop env retries delay i fuel).fetches = fuel
  | 0, i, _ => by simp [apiRequestLoop]
  | fuel + 1, i, h => by
    obtain ⟨w, hw⟩ := h i (Nat.le_refl i) (by omega)
    have ih := apiRequestLoop_all_rateLimited env retries delay fuel (i + 1)
      (fun j hj1 hj2 => h j (by omega) (by omega))
    simp [apiRequestLoop, hw, ih.1, ih.2]

end DistBot

/-- C2: for a post id already present in the idempotency store, a dispatcher
cycle produces zero additional processing for that id — removing every post
with that id from the fetched batch changes neither the cycle's outbound
events nor its final state — and recording the same id again
(`addRepliedId` / `markPostAsReplied`) is a no-op on the stored set. -/
theorem c2_idempotent_dispatch :
    (∀ (env : Bot.Env) (posts : List Post) (st : Bot.BotState) (pid : Nat),
        pid ∈ st.handled →
        Bot.runBot env posts st = Bot.runBot env (posts.filter (fun p => p.id ≠ pid)) st)
    ∧ (∀ (stored : Finset Nat) (pid : Nat), pid ∈ stored → Bot.addRepliedId stored pid = stored)
    ∧ (∀ (st : Bot.BotState) (pid : Nat), pid ∈ st.handled → Bot.markPostAsReplied st pid = st) := by
  refine ⟨fun env posts st pid h => Bot.runBot_skip_handled env posts st pid h, ?_, ?_⟩
  · intro stored pid h
    exact Finset.insert_eq_self.mpr h
  · intro st pid h
    simp [Bot.markPostAsReplied, Bot.addRepliedId, Finset.insert_eq_self.mpr h]

theorem c2_idempotent_dispatch_witness :
    (21 : Nat) ∈ stHandled.handled
    ∧ Bot.runBot envA [pFeedback] stHandled
        = Bot.runBot envA ([pFeedback].filter (fun p => p.id ≠ 21)) stHandled
    ∧ Bot.markPostAsReplied stHandled 21 = stHandled :=
  ⟨by decide, c2_idempotent_dispatch.1 envA [pFeedback] stHandled 21 (by decide),
   c2_idempotent_dispatch.2.2 stHandled 21 (by decide)⟩

/-- C3 counterexample: in the `src/bot.ts` classifier a completion-call
failure is not caught at the classifier boundary — `determineUserIntent`
propagates the error to its caller instead of yielding `other`. -/
theorem c3_counterexample : Bot.determineUserIntent (.error ()) = .error () := rfl

/-- C3 amended: both classifier variants return only labels of their
enumerated sets, and any normalized completion outside the set (empty,
malformed, or multi-word) yields `other`; the `src/discord-bot.ts`
classifier additionally catches a completion-call failure and yields
`other`, whereas the `src/bot.ts` classifier has no catch and propagates
the failure to its caller (it is caught at the dispatcher's loop boundary
instead). -/
theorem c3_classifier_totality :
    (∀ res, DiscordBot.determineUserIntent res ∈ DiscordBot.validIntentsDiscord)
    ∧ DiscordBot.determineUserIntent (.error ()) = "other"
    ∧ (∀ content, DiscordBot.cleanIntentOf content ∉ DiscordBot.validIntentsDiscord →
        DiscordBot.determineUserIntent (.ok content) = "other")
    ∧ (∀ content, DiscordBot.classifyIntent Bot.validIntents content ∈ Bot.validIntents)
    ∧ (∀ content, DiscordBot.cleanIntentOf content ∉ Bot.validIntents →
        Bot.determineUserIntent (.ok content) = .ok "other")
    ∧ (∀ e, Bot.determineUserIntent (.error e) = .error e) := by
  refine ⟨?_, rfl, ?_, ?_, ?_, fun e => rfl⟩
  · intro res
    cases res with
    | error e => simp [DiscordBot.determineUserIntent, DiscordBot.validIntentsDiscord]
    | ok content =>
      simp only [DiscordBot.determineUserIntent, DiscordBot.classifyIntent]
      split
      · assumption
      · simp [DiscordBot.validIntentsDiscord]
  · intro content h
    simp [DiscordBot.determineUserIntent, DiscordBot.classifyIntent, h]
  · intro content
    simp only [DiscordBot.classifyIntent]
    split
    · assumption
    · simp [Bot.validIntents]
  · intro content h
    simp [Bot.determineUserIntent, DiscordBot.classifyIntent, h]

theorem c3_classifier_totality_witness :
    DiscordBot.cleanIntentOf (some "maybe-ish") ∉ DiscordBot.validIntentsDiscord
    ∧ DiscordBot.determineUserIntent (.ok (some "maybe-ish")) = "other"
    ∧ DiscordBot.cleanIntentOf (some "maybe-ish") ∉ Bot.validIntents
    ∧ Bot.determineUserIntent (.ok (some "maybe-ish")) = .ok "other" :=
  ⟨by decide, c3_classifier_totality.2.2.1 (some "maybe-ish") (by decide),
   by decide, c3_classifier_totality.2.2.2.2.1 (some "maybe-ish") (by decide)⟩

/-- C7 counterexample: the rate-limit branch of `apiRequest` reaches its
`continue` inside the counted `for` loop, so rate-limited attempts do
consume the bounded retry budget: with the default budget of 3, three
consecutive rate-limit responses (5-second hint each) issue exactly three
fetches, sleep 5500 ms after each, and then the call stops retrying and
resolves with `undefined` — the request is not retried indefinitely. -/
theorem c7_counterexample :
    DistBot.apiRequest rlEnv 3 1000
      = ⟨DistBot.ApiResult.undef, [5500, 5500, 5500], 3⟩ := by decide

/-- C7 amended: on a rate-limit response the client sleeps the parsed
server wait hint (or the `delay / 1000`-second default when absent) plus a
500 ms buffer and then retries the same request — but each rate-limited
attempt consumes the same bounded attempt budget as other failures, and a
call whose every attempt is rate-limited exhausts the budget after
`retries` fetches and resolves with `undefined`. -/
theorem c7_rate_limit_retry :
    (∀ (env : Nat → DistBot.FetchResp) (retries delay i fuel : Nat) (w : Option Nat),
        env i = .rateLimited w →
        DistBot.apiRequestLoop env retries delay i (fuel + 1)
          = ⟨(DistBot.apiRequestLoop env retries delay (i + 1) fuel).result,
             (w.getD (delay / 1000) * 1000 + 500)
               :: (DistBot.apiRequestLoop env retries delay (i + 1) fuel).sleeps,
             (DistBot.apiRequestLoop env retries delay (i + 1) fuel).fetches + 1⟩)
    ∧ (∀ (env : Nat → DistBot.FetchResp) (retries delay : Nat),
        (∀ j, j < retries → ∃ w, env j = .rateLimited w) →
        (DistBot.apiRequest env retries delay).result = .undef
        ∧ (DistBot.apiRequest env retries delay).fetches = retries) := by
  constructor
  · intro env retries delay i fuel w h
    simp [DistBot.apiRequestLoop, h]
  · intro env retries delay h
    exact DistBot.apiRequestLoop_all_rateLimited env retries delay retries 0
      (fun j _ hj2 => h j (by omega))

theorem c7_rate_limit_retry_witness :
    DistBot.apiRequestLoop rlEnv 3 1000 1 2
      = ⟨(DistBot.apiRequestLoop rlEnv 3 1000 2 1).result,
         ((some 5).getD (1000 / 1000) * 1000 + 500)
           :: (DistBot.apiRequestLoop rlEnv 3 1000 2 1).sleeps,
         (DistBot.apiRequestLoop rlEnv 3 1000 2 1).fetches + 1⟩
    ∧ (DistBot.apiRequest rlEnv 3 1000).result = .undef
    ∧ (DistBot.apiRequest rlEnv 3 1000).fetches = 3 :=
  ⟨c7_rate_limit_retry.1 rlEnv 3 1000 1 1 (some 5) rfl,
   (c7_rate_limit_retry.2 rlEnv 3 1000 (fun j _ => ⟨some 5, rfl⟩)).1,
   (c7_rate_limit_retry.2 rlEnv 3 1000 (fun j _ => ⟨some 5, rfl⟩)).2⟩

/-- C8 counterexample: the `src/bot.ts` dispatcher has no restart guard —
a post created before any chosen process-start instant (here 1000) that
passes the other filters is still classified (and its topic fetched) by a
cycle, rather than being discarded before any processing. -/
theorem c8_counterexample :
    pOld.created_at < 1000
    ∧ (Bot.runBot envA [pOld] stEmpty).1.map Prod.fst
        = [Event.classify 3, Event.fetchTopic 9] := by decide

/-- C8 amended: the compiled dispatcher discards posts predating process
start, posts already handled, posts by the engine's own identity and posts
whose author name ends in `bot` (case-insensitively), and a discarded post
contributes no classification call, no retrieval and no outbound reply to
the cycle; the `src/bot.ts` dispatcher applies the latter three filters in
the same way but implements no creation-time filter. -/
theorem c8_dispatcher_filters :
    (∀ (env : DistBot.Env) (s : Nat) (posts₁ : List Post) (p : Post) (posts₂ : List Post) (st : DistBot.St),
        (p.created_at < s ∨ p.id ∈ st.handled
          ∨ JsStr.jsToLower p.username = JsStr.jsToLower env.apiUsername
          ∨ JsStr.jsEndsWith (JsStr.jsToLower p.username) "bot" = true) →
        DistBot.runBot env s (posts₁ ++ p :: posts₂) st = DistBot.runBot env s (posts₁ ++ posts₂) st)
    ∧ (∀ (env : Bot.Env) (posts₁ : List Post) (p : Post) (posts₂ : List Post) (st : Bot.BotState),
        (p.id ∈ st.handled
          ∨ JsStr.jsToLower p.username = JsStr.jsToLower env.apiUsername
          ∨ JsStr.jsEndsWith (JsStr.jsToLower p.username) "bot" = true) →
        Bot.runBot env (posts₁ ++ p :: posts₂) st = Bot.runBot env (posts₁ ++ posts₂) st) :=
  ⟨fun env s posts₁ p posts₂ st h => DistBot.runBot_drop_filteredJs env s posts₁ p posts₂ st h,
   fun env posts₁ p posts₂ st h => Bot.runBot_drop_filtered env posts₁ p posts₂ st h⟩

theorem c8_dispatcher_filters_witness :
    DistBot.runBot envD 1000 ([] ++ pOld :: []) stD = DistBot.runBot envD 1000 ([] ++ []) stD
    ∧ Bot.runBot envA ([] ++ pFeedback :: []) stHandled = Bot.runBot envA ([] ++ []) stHandled :=
  ⟨c8_dispatcher_filters.1 envD 1000 [] pOld [] stD (Or.inl (by decide)),
   c8_dispatcher_filters.2 envA [] pFeedback [] stHandled (Or.inl (by decide))⟩

/-- C10: in the `src/bot.ts` question path the triggering post id is
recorded in the idempotency store before any outbound action — every event
`handleQuestion` emits (thinking reply, retrieval, completion call, final
edit) is emitted in a state whose handled set already contains the post id
(mark-then-act) — and once marked, every dispatcher cycle skips that id
entirely, so a crash between marking and replying permanently skips the
reply (at-most-once delivery). -/
theorem c10_mark_then_act :
    (∀ (env : Bot.Env) (post : Post) (st : Bot.BotState) (q : Ev),
        q ∈ (Bot.handleQuestion env post st).1 → post.id ∈ q.2)
    ∧ (∀ (env : Bot.Env) (posts : List Post) (st : Bot.BotState) (pid : Nat),
        Bot.runBot env posts (Bot.markPostAsReplied st pid)
          = Bot.runBot env (posts.filter (fun p => p.id ≠ pid)) (Bot.markPostAsReplied st pid)) := by
  constructor
  · intro env post st q hq
    simp only [Bot.handleQuestion, Bot.postReplyM, Bot.emit, Bot.markPostAsReplied,
      Bot.addRepliedId] at hq
    repeat' split at hq
    all_goals
      simp only [List.mem_cons, List.not_mem_nil, or_false] at hq
    all_goals
      rcases hq with rfl | rfl | rfl | rfl <;> simp [Finset.mem_insert]
  · intro env posts st pid
    exact Bot.runBot_skip_handled env posts _ pid (Finset.mem_insert_self pid st.handled)

theorem c10_mark_then_act_witness :
    pQ.id ∈ (Event.reply 4 "_Thinking..._" 10, ({7} : Finset Nat)).2
    ∧ Bot.runBot envQ [pQ] (Bot.markPostAsReplied stEmpty 7)
        = Bot.runBot envQ ([pQ].filter (fun p => p.id ≠ 7)) (Bot.markPostAsReplied stEmpty 7) :=
  ⟨c10_mark_then_act.1 envQ pQ stEmpty (Event.reply 4 "_Thinking..._" 10, {7}) (by decide),
   c10_mark_then_act.2 envQ [pQ] stEmpty 7⟩

/-- C4 counterexample: the `src/bot.ts` question handler issues its
generation completion call even when retrieval returns zero documents for
the question's query — the generation call is not skipped and no fixed
insufficient-knowledge reply is produced. -/
theorem c4_counterexample :
    envQ.docs (JsStr.jsTrim (JsStr.stripHtml pQ.raw)) = []
    ∧ Event.llm ∈ (Bot.handleQuestion envQ pQ stEmpty).1.map Prod.fst := by decide

/-- C4 amended: the `src/discord-bot.ts` reply generator returns the fixed
insufficient-knowledge / offer-to-escalate reply and makes zero completion
calls whenever retrieval returns zero documents, independently of the
completion oracle (hence byte-for-byte reproducible); the `src/bot.ts`
question handler, by contrast, issues its completion call even when its
retrieval query returns zero documents. -/
theorem c4_zero_retrieval :
    (∀ llm, DiscordBot.generateAiReply [] llm = (DiscordBot.noKnowledgeReply, 0))
    ∧ (∀ (env : Bot.Env) (post : Post) (st : Bot.BotState),
        env.docs (JsStr.jsTrim (JsStr.stripHtml post.raw)) = [] →
        Event.llm ∈ (Bot.handleQuestion env post st).1.map Prod.fst) := by
  constructor
  · intro llm
    rfl
  · intro env post st _
    cases hgen : env.gen post with
    | none => simp [Bot.handleQuestion, Bot.postReplyM, Bot.emit, hgen]
    | some s =>
      by_cases hc : s ≠ "" ∧ st.nextId + 1 ≠ 1 ∨ True
      · simp only [Bot.handleQuestion, Bot.postReplyM, Bot.emit, hgen]
        split <;> simp
      · simp only [Bot.handleQuestion, Bot.postReplyM, Bot.emit, hgen]
        split <;> simp

theorem c4_zero_retrieval_witness :
    DiscordBot.generateAiReply [] (.error ()) = (DiscordBot.noKnowledgeReply, 0)
    ∧ envQ.docs (JsStr.jsTrim (JsStr.stripHtml pQ.raw)) = []
    ∧ Event.llm ∈ (Bot.handleQuestion envQ pQ stEmpty).1.map Prod.fst :=
  ⟨c4_zero_retrieval.1 (.error ()), by decide,
   c4_zero_retrieval.2 envQ pQ stEmpty (by decide)⟩


theorem ne_empty_of_jsTrim_ne (s : String) (h : JsStr.jsTrim s ≠ "") : s ≠ "" :=
  fun he => h (by rw [he]; decide)

/-- C6 counterexample: in the compiled variant's `generateAiReply` a
whitespace-only (non-null) completion is not caught — the reply returned
with a non-empty document list is the completion trimmed to the empty
string, not a fixed human-follow-up fallback, so the returned reply text
can be empty. -/
theorem c6_counterexample :
    JsStr.jsTrim "   " = ""
    ∧ DistBot.generateAiReply ["Some document"] (.ok (some "   ")) = "" := by decide

/-- C6 amended: in the `src/discord-bot.ts` generator a failed, null,
empty or whitespace-only completion yields the fixed
human-has-been-notified fallback and the returned reply text is never
empty; in the compiled variant's generator a failed or null completion
yields a fixed fallback, but a whitespace-only completion is returned
trimmed — as the empty string. -/
theorem c6_generation_fallback :
    (∀ (docs : List DiscordBot.JsDoc), docs ≠ [] →
        DiscordBot.generateAiReply docs (.error ()) = (DiscordBot.DEFAULT_ERROR_MESSAGE, 1)
        ∧ DiscordBot.generateAiReply docs (.ok none) = (DiscordBot.DEFAULT_ERROR_MESSAGE, 1)
        ∧ ∀ s, JsStr.jsTrim s = "" →
            DiscordBot.generateAiReply docs (.ok (some s)) = (DiscordBot.DEFAULT_ERROR_MESSAGE, 1))
    ∧ (∀ (docs : List DiscordBot.JsDoc) (llm : Except Unit (Option String)),
        (DiscordBot.generateAiReply docs llm).1 ≠ "")
    ∧ (∀ (docs : List String),
        DistBot.generateAiReply docs (.error ())
            = "I'm sorry, I encountered an error. A human agent will get back to you shortly."
        ∧ DistBot.generateAiReply docs (.ok none) = "I'm sorry, I encountered an error."
        ∧ ∀ s, DistBot.generateAiReply docs (.ok (some s)) = JsStr.jsTrim s) := by
  refine ⟨?_, ?_, ?_⟩
  · intro docs hne
    have hlen : ¬ docs.length = 0 := by simpa [List.length_eq_zero] using hne
    refine ⟨?_, ?_, ?_⟩
    · simp [DiscordBot.generateAiReply, hlen]
    · simp [DiscordBot.generateAiReply, hlen]
    · intro s hs
      simp [DiscordBot.generateAiReply, hlen, hs]
  · intro docs llm
    simp only [DiscordBot.generateAiReply]
    by_cases hd : docs.length = 0
    · simp only [hd, if_true]
      show DiscordBot.noKnowledgeReply ≠ ""
      decide
    · simp only [hd, if_false]
      cases llm with
      | error e =>
        show DiscordBot.DEFAULT_ERROR_MESSAGE ≠ ""
        decide
      | ok content =>
        cases content with
        | none =>
          show DiscordBot.DEFAULT_ERROR_MESSAGE ≠ ""
          decide
        | some s =>
          by_cases hs : JsStr.jsTrim s = ""
          · simp only [hs, if_true]
            show DiscordBot.DEFAULT_ERROR_MESSAGE ≠ ""
            decide
          · simp only [hs, if_false]
            cases hsl : DiscordBot.sourceLines docs s with
            | error e =>
              show DiscordBot.DEFAULT_ERROR_MESSAGE ≠ ""
              decide
            | ok sources =>
              simp only []
              by_cases hlen2 : sources.length > 0
              · simp only [hlen2, if_true]
                split
                · show DiscordBot.DEFAULT_ERROR_MESSAGE ≠ ""
                  decide
                · rename_i hfr
                  exact ne_empty_of_jsTrim_ne _ hfr
              · simp only [hlen2, if_false]
                split
                · show DiscordBot.DEFAULT_ERROR_MESSAGE ≠ ""
                  decide
                · rename_i hfr
                  exact ne_empty_of_jsTrim_ne _ hfr
  · intro docs
    exact ⟨rfl, rfl, fun s => rfl⟩

theorem c6_generation_fallback_witness :
    DiscordBot.generateAiReply [DiscordBot.gatewayDoc "x"] (.error ())
        = (DiscordBot.DEFAULT_ERROR_MESSAGE, 1)
    ∧ JsStr.jsTrim " \n " = ""
    ∧ DiscordBot.generateAiReply [DiscordBot.gatewayDoc "x"] (.ok (some " \n "))
        = (DiscordBot.DEFAULT_ERROR_MESSAGE, 1)
    ∧ (DiscordBot.generateAiReply [DiscordBot.gatewayDoc "x"] (.ok (some "hello"))).1 ≠ "" :=
  ⟨(c6_generation_fallback.1 [DiscordBot.gatewayDoc "x"] (by decide)).1,
   by decide,
   (c6_generation_fallback.1 [DiscordBot.gatewayDoc "x"] (by decide)).2.2 " \n " (by decide),
   c6_generation_fallback.2.1 [DiscordBot.gatewayDoc "x"] (.ok (some "hello"))⟩

/-- C1: for a reply the discord-bot generator produces from a non-empty
document list (fields present, as the spec's `RetrievedDocument` carries)
and a non-empty completion text, the trailing Sources block lists exactly
the documents whose 1-based index `i` occurs as the literal marker `[i]`
in the completion text — one rendered line per cited index, markdown link
when the url starts with `http` and plain title otherwise, in ascending
index order (the filter of the enumerated list), and no block at all when
no marker matches; every cited index is at most the number of retrieved
documents. -/
theorem c1_citation_sources (docs : List DiscordBot.JsDoc) (resp : String)
    (hne : docs ≠ [])
    (hurl : ∀ d ∈ docs, d.url.isSome)
    (hresp : JsStr.jsTrim resp ≠ "") :
    ((DiscordBot.generateAiReply docs (.ok (some resp))).1 =
      if ((List.range docs.length).zip docs).filter
          (fun p => JsStr.jsIncludes resp (DiscordBot.citeMarker (p.1 + 1))) = [] then resp
      else
        resp ++ "\n\n**Sources:**\n"
          ++ String.intercalate "\n"
              ((((List.range docs.length).zip docs).filter
                  (fun p => JsStr.jsIncludes resp (DiscordBot.citeMarker (p.1 + 1)))).map
                (fun p => DiscordBot.renderSource p.1 p.2)))
    ∧ List.Sorted (· < ·)
        ((((List.range docs.length).zip docs).filter
            (fun p => JsStr.jsIncludes resp (DiscordBot.citeMarker (p.1 + 1)))).map Prod.fst)
    ∧ (∀ p ∈ ((List.range docs.length).zip docs).filter
          (fun p => JsStr.jsIncludes resp (DiscordBot.citeMarker (p.1 + 1))),
        p.1 + 1 ≤ docs.length) := by
  have hlen : ¬ docs.length = 0 := by
    simpa [List.length_eq_zero] using hne
  have hsl : DiscordBot.sourceLines docs resp =
      .ok ((((List.range docs.length).zip docs).filter
          (fun p => JsStr.jsIncludes resp (DiscordBot.citeMarker (p.1 + 1)))).map
        (fun p => DiscordBot.renderSource p.1 p.2)) := by
    unfold DiscordBot.sourceLines
    rw [DiscordBot.sourceLinesGo_ok resp docs 0 hurl]
    rw [← List.range_eq_range']
    rw [filterMap_ite_eq_map_filter
      (fun p : Nat × DiscordBot.JsDoc => JsStr.jsIncludes resp (DiscordBot.citeMarker (p.1 + 1)))
      (fun p : Nat × DiscordBot.JsDoc => DiscordBot.renderSource p.1 p.2)
      ((List.range docs.length).zip docs)]
  refine ⟨?_, ?_, ?_⟩
  · simp only [DiscordBot.generateAiReply, hlen, if_false, hresp, hsl]
    by_cases hc : ((List.range docs.length).zip docs).filter
        (fun p => JsStr.jsIncludes resp (DiscordBot.citeMarker (p.1 + 1))) = []
    · simp [hc, hresp]
    · have hlen2 : 0 < (((List.range docs.length).zip docs).filter
          (fun p => JsStr.jsIncludes resp (DiscordBot.citeMarker (p.1 + 1)))).length := by
        simpa [List.length_pos] using hc
      have hfr : JsStr.jsTrim
          (resp ++ "\n\n**Sources:**\n"
            ++ String.intercalate "\n"
                ((((List.range docs.length).zip docs).filter
                    (fun p => JsStr.jsIncludes resp (DiscordBot.citeMarker (p.1 + 1)))).map
                  (fun p => DiscordBot.renderSource p.1 p.2))) ≠ "" :=
        JsStr.jsTrim_append_ne_empty _ _ (JsStr.jsTrim_append_ne_empty _ _ hresp)
      simp [hc, hlen2, hfr]
  · have hzip : List.Sublist
        ((((List.range docs.length).zip docs).filter
            (fun p => JsStr.jsIncludes resp (DiscordBot.citeMarker (p.1 + 1)))).map Prod.fst)
        (((List.range docs.length).zip docs).map Prod.fst) :=
      (List.filter_sublist _).map Prod.fst
    rw [List.map_fst_zip _ _ (by simp)] at hzip
    exact (List.pairwise_lt_range docs.length).sublist hzip
  · intro p hp
    have hmem : p ∈ (List.range docs.length).zip docs :=
      (List.filter_sublist _).subset hp
    have h1 : p.1 ∈ List.range docs.length := by
      obtain ⟨a, b⟩ := p
      exact (List.of_mem_zip hmem).1
    have := List.mem_range.mp h1
    omega

theorem c1_citation_sources_witness :
    ((DiscordBot.generateAiReply docsC1 (.ok (some "See [1]"))).1 =
      if ((List.range docsC1.length).zip docsC1).filter
          (fun p => JsStr.jsIncludes "See [1]" (DiscordBot.citeMarker (p.1 + 1))) = [] then "See [1]"
      else
        "See [1]" ++ "\n\n**Sources:**\n"
          ++ String.intercalate "\n"
              ((((List.range docsC1.length).zip docsC1).filter
                  (fun p => JsStr.jsIncludes "See [1]" (DiscordBot.citeMarker (p.1 + 1)))).map
                (fun p => DiscordBot.renderSource p.1 p.2)))
    ∧ (DiscordBot.generateAiReply docsC1 (.ok (some "See [1]"))).1
        = "See [1]" ++ "\n\n**Sources:**\n" ++ "1. [Doc A](http://a)" :=
  ⟨(c1_citation_sources docsC1 "See [1]" (by decide) (by decide) (by decide)).1, by decide⟩

/-- C9: against the shipped retrieval gateway, whose documents carry only a
`pageContent` field, the discord-bot generator builds its grounding block
from absent titles and contents (every block reads
`[Source i: undefined]` + `undefined`), and whenever the completion text
contains a citation marker `[i]` for a retrieved index, the access to the
absent `url` field faults inside the `try` block and the function returns
the fixed error message instead of a grounded answer with sources — the
citation-success path is unreachable with this gateway. -/
theorem c9_gateway_mismatch (pcs : List String) (resp : String)
    (hne : pcs ≠ [])
    (hmark : ∃ j, j < pcs.length ∧ JsStr.jsIncludes resp (DiscordBot.citeMarker (j + 1)) = true)
    (hresp : JsStr.jsTrim resp ≠ "") :
    DiscordBot.formattedContext (pcs.map DiscordBot.gatewayDoc)
        = String.intercalate "\n\n---\n\n"
            ((List.range pcs.length).map
              (fun k => "[Source " ++ toString (k + 1) ++ ": " ++ "undefined" ++ "]\n" ++ "undefined"))
    ∧ DiscordBot.generateAiReply (pcs.map DiscordBot.gatewayDoc) (.ok (some resp))
        = (DiscordBot.DEFAULT_ERROR_MESSAGE, 1) := by
  constructor
  · unfold DiscordBot.formattedContext
    rw [DiscordBot.contextBlocks_gateway pcs 0, ← List.range_eq_range']
  · have hlen : ¬ (pcs.map DiscordBot.gatewayDoc).length = 0 := by
      simp [List.length_eq_zero, hne]
    have herr : DiscordBot.sourceLines (pcs.map DiscordBot.gatewayDoc) resp = .error () := by
      unfold DiscordBot.sourceLines
      apply DiscordBot.sourceLinesGo_error
      · intro d hd
        rcases List.mem_map.mp hd with ⟨pc, _, rfl⟩
        rfl
      · obtain ⟨j, hj, hm⟩ := hmark
        exact ⟨j, by simpa using hj, by simpa using hm⟩
    simp only [DiscordBot.generateAiReply, hlen, if_false, hresp, herr]

theorem c9_gateway_mismatch_witness :
    DiscordBot.formattedContext (["Title: A\nContent: B\nURL: http://a"].map DiscordBot.gatewayDoc)
        = String.intercalate "\n\n---\n\n"
            ((List.range (["Title: A\nContent: B\nURL: http://a"] : List String).length).map
              (fun k => "[Source " ++ toString (k + 1) ++ ": " ++ "undefined" ++ "]\n" ++ "undefined"))
    ∧ DiscordBot.generateAiReply
          (["Title: A\nContent: B\nURL: http://a"].map DiscordBot.gatewayDoc)
          (.ok (some "Answer [1]"))
        = (DiscordBot.DEFAULT_ERROR_MESSAGE, 1) :=
  c9_gateway_mismatch ["Title: A\nContent: B\nURL: http://a"] "Answer [1]"
    (by decide) ⟨0, by decide, by decide⟩ (by decide)

/-- C5: while a conversation's feedback session is awaiting initial
feedback, the next post in that conversation is handled as: a positive
keyword match (anchored at the start, message under 30 characters) posts
the fixed acknowledgement and deletes the session; otherwise a negative
keyword match posts the fixed escalation-offer prompt and moves the
session to awaiting escalation confirmation; otherwise the session is
deleted and the post is re-routed through the full
intent-classification + reply pipeline (`processPost`) as a fresh post. -/
theorem c5_feedback_fsm (env : Bot.Env) (post : Post) (st : Bot.BotState)
    (hs : Bot.lookupFB st.feedback post.topic_id = some Bot.FeedbackState.awaiting_initial_feedback) :
    (Bot.isPositiveFeedback (JsStr.jsTrim post.raw) = true →
        (Bot.handleFeedbackReply env post st).1.map Prod.fst
            = [Event.reply post.topic_id
                ("Thanks, I'm glad I could help!" ++ Bot.botFooter env) st.nextId]
        ∧ Bot.lookupFB (Bot.handleFeedbackReply env post st).2.feedback post.topic_id = none)
    ∧ (Bot.isPositiveFeedback (JsStr.jsTrim post.raw) = false →
        Bot.isNegativeFeedback (JsStr.jsTrim post.raw) = true →
        (Bot.handleFeedbackReply env post st).1.map Prod.fst
            = [Event.reply post.topic_id
                ("I'm sorry to hear that. Do you want me to raise a ticket for the support team?"
                  ++ Bot.botFooter env) st.nextId]
        ∧ Bot.lookupFB (Bot.handleFeedbackReply env post st).2.feedback post.topic_id
            = some Bot.FeedbackState.awaiting_escalation_confirmation)
    ∧ (Bot.isPositiveFeedback (JsStr.jsTrim post.raw) = false →
        Bot.isNegativeFeedback (JsStr.jsTrim post.raw) = false →
        Bot.handleFeedbackReply env post st
            = Bot.processPost env post
                (Bot.deleteFeedback (Bot.markPostAsReplied st post.id) post.topic_id)) := by
  refine ⟨?_, ?_, ?_⟩
  · intro hp
    constructor
    · simp [Bot.handleFeedbackReply, hs, hp, Bot.postReplyM, Bot.emit]
    · simp [Bot.handleFeedbackReply, hs, hp, Bot.postReplyM, Bot.emit, Bot.deleteFeedback,
        apply_ite Bot.BotState.feedback, Bot.lookupFB_delFB]
  · intro hp hn
    constructor
    · simp [Bot.handleFeedbackReply, hs, hp, hn, Bot.postReplyM, Bot.emit]
    · simp [Bot.handleFeedbackReply, hs, hp, hn, Bot.postReplyM, Bot.emit, Bot.setFeedback,
        apply_ite Bot.BotState.feedback, Bot.lookupFB_setFB]
  · intro hp hn
    simp [Bot.handleFeedbackReply, hs, hp, hn]

theorem c5_feedback_fsm_witness :
    Bot.lookupFB stFB.feedback pFeedback.topic_id = some Bot.FeedbackState.awaiting_initial_feedback
    ∧ Bot.isPositiveFeedback (JsStr.jsTrim pFeedback.raw) = true
    ∧ ((Bot.handleFeedbackReply envA pFeedback stFB).1.map Prod.fst
        = [Event.reply pFeedback.topic_id
            ("Thanks, I'm glad I could help!" ++ Bot.botFooter envA) stFB.nextId]
      ∧ Bot.lookupFB (Bot.handleFeedbackReply envA pFeedback stFB).2.feedback pFeedback.topic_id = none)
    ∧ Bot.isPositiveFeedback (JsStr.jsTrim pAmbiguous.raw) = false
    ∧ Bot.isNegativeFeedback (JsStr.jsTrim pAmbiguous.raw) = false
    ∧ Bot.handleFeedbackReply envA pAmbiguous stFB
        = Bot.processPost envA pAmbiguous
            (Bot.deleteFeedback (Bot.markPostAsReplied stFB pAmbiguous.id) pAmbiguous.topic_id) :=
  ⟨by decide, by decide,
   (c5_feedback_fsm envA pFeedback stFB (by decide)).1 (by decide),
   by decide, by decide,
   (c5_feedback_fsm envA pAmbiguous stFB (by decide)).2.2 (by decide) (by decide)⟩
